import Mathlib

/-
Verification of the AloeGraph workflow engine against its specification.

The development shallowly embeds the two generations of the engine:

* the V2 engine (`src/aloegraph/V2/v2_aloe_graph.py`, decorators in
  `src/aloegraph/V2/graph/v2_aloe_node.py` and `v2_aloe_node_graph.py`,
  router composition in `src/aloegraph/V2/agent/v2_router_agent.py`), and
* the V1 engine (`src/aloegraph/aloe_graph.py` with the state record in
  `src/aloegraph/aloe_config.py` and `src/aloegraph/model/base_model.py`).

Python dictionaries are embedded as insertion-ordered association lists,
exceptions as `Except` values, and node bodies as pure functions that either
return an updated state or signal a raised exception.  The file
`src/aloegraph/V2/v2_base_model.py` (the state base class `V2AloeConfig`,
the `END` sentinel and the edge/node metadata records) is referenced by the
sources but is not part of the source tree; the corresponding definitions
below are modelled from the specification and are marked as such.
-/

namespace AloeGraph

/-- Terminal sentinel marking the end of graph execution.  Modelled from the
spec: the constant `END` lives in the missing `v2_base_model.py`; the module
docstring of `v2_aloe_graph.py` fixes its value as the marker string
`"__END__"`. -/
def END : String := "__END__"

/-- Lookup in a Python dictionary embedded as an insertion-ordered
association list.  `dictGet d k` is `some v` when `k` maps to `v` and `none`
when the key is absent (in Python, `d[k]` raises `KeyError` in that case). -/
def dictGet {α : Type} : List (String × α) → String → Option α
  | [], _ => none
  | (k1, v) :: rest, k => if k1 = k then some v else dictGet rest k

/-- In-place replacement of the pair keyed `k` by `(k, v)`, leaving other
pairs alone. -/
def replacePair {α : Type} (k : String) (v : α) (p : String × α) :
    String × α :=
  if p.1 = k then (k, v) else p

/-- Python dictionary assignment `d[k] = v`: when the key already exists its
value is replaced in place (the key keeps its original position in the
iteration order), otherwise the pair is appended at the end. -/
def dictInsert {α : Type} (d : List (String × α)) (k : String) (v : α) :
    List (String × α) :=
  if (dictGet d k).isSome then d.map (replacePair k v)
  else d ++ [(k, v)]

/-- Exceptions that the embedded Python code can raise. -/
inductive PyErr : Type
  | keyError (key : String)
  | runtimeError (msg : String)
  | valueError (msg : String)
deriving DecidableEq, Repr

/-- Edge metadata attached by `AloeNodeWrapper.wrap_edge`
(`src/aloegraph/V2/graph/v2_aloe_node.py`, lines 158-165): a target node
name, the edge name (defaulting to the target there), an optional
description and the interrupt flag.  The record class `AloeEdgeData` itself
lives in the missing `v2_base_model.py`; its fields are modelled from the
spec and from the constructor call in `wrap_edge`. -/
structure AloeEdgeData where
  target : String
  name : String
  description : Option String := none
  interrupt : Bool := false
deriving DecidableEq, Repr

/-- Node metadata attached by `AloeNodeWrapper.wrap_node`
(`src/aloegraph/V2/graph/v2_aloe_node.py`, lines 198-207).  The record class
`AloeNodeData` lives in the missing `v2_base_model.py`; the fields are
modelled from the spec and from the assignments in `wrap_node`.  The render
shape is omitted: it only affects diagram output. -/
structure AloeNodeData where
  name : String
  description : Option String := none
  is_entry : Bool := false
deriving DecidableEq, Repr

/-- `AloeNodeWrapper` (`src/aloegraph/V2/graph/v2_aloe_node.py`): a node
body together with its metadata and outgoing-edge map.  The body is embedded
as a pure function on the state that either returns the updated state or
signals a raised Python exception (carrying the exception text, which the
engine only logs). -/
structure AloeNodeWrapper (S : Type) where
  node_data : AloeNodeData
  edge_map : List (String × AloeEdgeData)
  fn : S → Except String S

/-- A compiled V2 graph as `V2AloeGraph.invoke` sees it: the node map built
by `V2AloeNodeGraph.__init_subclass__`, the start node selected by
`compile`, and the `_is_initialized` flag set by `compile`. -/
structure V2Graph (S : Type) where
  nodes : List (String × AloeNodeWrapper S)
  start_node : String
  _is_initialized : Bool

/-- Modelled from the spec: interface of the state base class `V2AloeConfig`
(`v2_base_model.py` is referenced by every V2 module but absent from src/).
Spec section 3 fixes the control fields: `currentEdge` (`__EDGE__`),
`pendingInterrupt` (`__INTERRUPT__`) and `errorMessage` / `retryHint`
(`error_message` / `retry_message`), the latter two cleared at the start of
each invocation, which is what the `_enter` hook called by `invoke` is
modelled to do; `_exit` is modelled as the identity since the spec ascribes
no observable effect to it.  The class mirrors the `StateT : V2AloeConfig`
type bound of `V2AloeGraph`. -/
class V2AloeConfigC (S : Type) where
  getEDGE : S → String
  setEDGE : S → String → S
  getINTERRUPT : S → String
  setINTERRUPT : S → String → S
  setErrorMessage : S → String → S
  enterState : S → S
  exitState : S → S

export V2AloeConfigC (getEDGE setEDGE getINTERRUPT setINTERRUPT
  setErrorMessage enterState exitState)

/-- Modelled from the spec: the concrete base execution state `V2AloeConfig`
of `v2_base_model.py` (absent from src/), with the control fields of spec
section 3 plus the user/agent message payload fields used by the agents. -/
structure VState where
  __EDGE__ : String := ""
  __INTERRUPT__ : String := ""
  user_message : String := ""
  agent_message : String := ""
  error_message : String := ""
  retry_message : String := ""
deriving DecidableEq, Repr

instance : V2AloeConfigC VState where
  getEDGE s := s.__EDGE__
  setEDGE s v := { s with __EDGE__ := v }
  getINTERRUPT s := s.__INTERRUPT__
  setINTERRUPT s v := { s with __INTERRUPT__ := v }
  setErrorMessage s v := { s with error_message := v }
  enterState s := { s with error_message := "", retry_message := "" }
  exitState s := s

/-- Result of one iteration of the `while` loop of `V2AloeGraph.invoke`:
either the loop continues with an updated state and step counter, or an
exception is in flight (to be handled by the `finally` clause). -/
inductive StepResult (S : Type) : Type
  | cont (s : S) (steps : Nat)
  | raised (s : S) (e : PyErr)

/-- Python truthiness of an `AloeEdgeData` instance.  The class defines
neither a bool conversion nor a length, so instances are always truthy;
consequently the `if not next_edge` fallback in `invoke` (lines 200-204 of
`v2_aloe_graph.py`) is dead code: a missing key already raises `KeyError`
at line 199, and a present key yields a truthy value. -/
def edgeDataTruthy (_ : AloeEdgeData) : Bool := true

/-- The error message formatted at line 215 of `v2_aloe_graph.py`. -/
def recursionLimitMsg (recursion_limit : Nat) : String :=
  "Recursion limit " ++ toString recursion_limit ++ " reached without hitting END"

/-- One iteration of the `while` loop of `V2AloeGraph.invoke`
(`src/aloegraph/V2/v2_aloe_graph.py`, lines 186-216):
look up the node under the current dispatch target (line 187), run its body
under `try/except` where an exception is only logged (lines 191-196),
resolve the edge chosen by the body against the node edge map (line 199,
a plain dictionary access that raises `KeyError` on a missing key, which
makes the fallback of lines 200-204 unreachable for missing keys), set or
clear the interrupt marker (lines 205-210), then increment the step counter
and enforce the recursion limit (lines 211-216).  The dispatch target
`__EDGE__` is never reassigned by the engine: the next iteration dispatches
on whatever name the body stored there. -/
def invokeStep {S : Type} [V2AloeConfigC S] (g : V2Graph S) (s : S)
    (steps recursion_limit : Nat) : StepResult S :=
  match dictGet g.nodes (getEDGE s) with
  | none => .raised s (.keyError (getEDGE s))
  | some node_fn =>
    let s1 : S :=
      match node_fn.fn s with
      | .ok s2 => s2
      | .error _ => s
    match dictGet node_fn.edge_map (getEDGE s1) with
    | none => .raised s1 (.keyError (getEDGE s1))
    | some ne0 =>
      let resolved : Except PyErr AloeEdgeData :=
        if edgeDataTruthy ne0 then .ok ne0
        else if node_fn.edge_map.length = 1 then
          match node_fn.edge_map with
          | (_, e1) :: _ => .ok e1
          | [] => .error (.valueError "state.__EDGE__ not defined")
        else .error (.valueError "state.__EDGE__ not defined")
      match resolved with
      | .error e => .raised s1 e
      | .ok next_edge =>
        let s2 : S :=
          if next_edge.interrupt then setINTERRUPT s1 (getEDGE s1)
          else setINTERRUPT s1 ""
        if steps + 1 > recursion_limit then
          .raised (setErrorMessage s2 (recursionLimitMsg recursion_limit))
            (.runtimeError (recursionLimitMsg recursion_limit))
        else .cont s2 (steps + 1)

/-- The `while` loop of `V2AloeGraph.invoke` (lines 186-216), run on
explicit fuel.  The loop condition is line 186: continue while the dispatch
target differs from `END` and no interrupt is pending.  The result pairs the
final state with the exception in flight, if any; the `finally` clause of
`invoke` decides what happens to it.  Each iteration increments the step
counter, and the counter exceeding the limit raises, so the loop runs at
most `recursion_limit + 1` iterations; `invoke` supplies more fuel than
that, making the fuel-exhaustion branch unreachable. -/
def invokeLoop {S : Type} [V2AloeConfigC S] (g : V2Graph S) :
    Nat → S → Nat → Nat → S × Option PyErr
  | 0, s, _, _ => (s, none)
  | fuel + 1, s, steps, recursion_limit =>
    if getEDGE s ≠ END ∧ getINTERRUPT s = "" then
      match invokeStep g s steps recursion_limit with
      | .raised s1 e => (s1, some e)
      | .cont s1 steps1 => invokeLoop g fuel s1 steps1 recursion_limit
    else (s, none)

/-- `V2AloeGraph.invoke` (`src/aloegraph/V2/v2_aloe_graph.py`, lines
140-219).  Before the `try` block: raise `RuntimeError` when the graph is
not compiled (line 170), call `_enter` on the state (line 173), then either
resume from a pending interrupt - the marker becomes the dispatch target and
is cleared (lines 174-179) - or dispatch to the start node (line 181).  The
`try` block runs the step loop.  Its `finally` clause (lines 217-219)
executes `return self.state`: in Python a `return` inside `finally` discards
any exception in flight, so every exception raised inside the loop
(recursion limit, `KeyError` on edge or node lookup, `ValueError`) is
swallowed and the caller sees a normal return of the state; the second
component of the loop result is dropped accordingly. -/
def invoke {S : Type} [V2AloeConfigC S] (g : V2Graph S) (state : S)
    (recursion_limit : Nat) : Except PyErr S :=
  if ¬ g._is_initialized then .error (.runtimeError "Graph has not been compiled")
  else
    let s0 := enterState state
    let s1 :=
      if getINTERRUPT s0 ≠ "" then
        setINTERRUPT (setEDGE s0 (getINTERRUPT s0)) ""
      else setEDGE s0 g.start_node
    let r := invokeLoop g (recursion_limit + 2) s1 0 recursion_limit
    .ok (exitState r.1)

/-- Compile-time failures of `V2AloeGraph.compile`
(`src/aloegraph/V2/v2_aloe_graph.py`): the dangling-target `ValueError` of
lines 280-281 (carrying the edge name, source node and target from the
message), the "No start node defined" `ValueError` of line 289 and the
"More than one start node defined" `ValueError` of line 292. -/
inductive CompileErr : Type
  | danglingTarget (edge_name node_name target : String)
  | noStartNode
  | multipleStartNodes
deriving DecidableEq, Repr

/-- Inner loop of the edge-target validation of `compile` (lines 277-281):
scan the edge map of one node for the first edge whose target is neither a
registered node nor `END`. -/
def firstDanglingEdge {S : Type} (nodes : List (String × AloeNodeWrapper S))
    (node_name : String) : List (String × AloeEdgeData) → Option CompileErr
  | [] => none
  | (edge_name, ed) :: rest =>
    if (dictGet nodes ed.target).isNone ∧ ed.target ≠ END then
      some (.danglingTarget edge_name node_name ed.target)
    else firstDanglingEdge nodes node_name rest

/-- Outer loop of the edge-target validation of `compile` (lines 276-281):
the first dangling edge over all nodes in registration order. -/
def firstDangling {S : Type} (nodes : List (String × AloeNodeWrapper S)) :
    List (String × AloeNodeWrapper S) → Option CompileErr
  | [] => none
  | (n, nw) :: rest =>
    match firstDanglingEdge nodes n nw.edge_map with
    | some e => some e
    | none => firstDangling nodes rest

/-- What a successful `compile` stores on the graph object (lines 294-311):
the start node, the `start_nodes` list it was taken from, the execution plan
mapping each node name to the list of its edge targets, and the
`_is_initialized` flag set to true.  On failure the `raise` prevents every
one of these assignments, so no partial plan exists: failure and success are
disjoint constructors. -/
structure CompileResult where
  start_node : String
  start_nodes : List String
  execution_plan : List (String × List String)
  _is_initialized : Bool
deriving DecidableEq, Repr

/-- The execution plan built by `compile` (lines 296-302): for each node, in
registration order, the list of its edge targets. -/
def executionPlan {S : Type} (nodes : List (String × AloeNodeWrapper S)) :
    List (String × List String) :=
  nodes.map (fun p => (p.1, p.2.edge_map.map (fun q => q.2.target)))

/-- The entry nodes of a registry: names of nodes whose `is_entry` flag is
set, in registration order (the `start_nodes` comprehension of lines
283-286). -/
def startNodes {S : Type} (nodes : List (String × AloeNodeWrapper S)) :
    List String :=
  (nodes.filter (fun p => p.2.node_data.is_entry)).map (fun p => p.1)

/-- `V2AloeGraph.compile` (`src/aloegraph/V2/v2_aloe_graph.py`, lines
235-311), with the result of the subclass `preflight` hook passed in as
`preflightOk`.  Lines 273-274 read
`if not self.preflight(): AloeGraphCompileError("Preflight Checks Failed")`:
the exception object is constructed but never raised, so a failing preflight
has no effect on compilation; the model keeps the constructed, immediately
discarded value as the unused `let` binding.  Then every edge target must be
a registered node or `END` (lines 276-281), there must be exactly one entry
node (lines 283-292), and on success the plan is built and the graph is
marked initialized (lines 294-311). -/
def compile {S : Type} (nodes : List (String × AloeNodeWrapper S))
    (preflightOk : Bool) : Except CompileErr CompileResult :=
  let _unraisedPreflightError : Option String :=
    if preflightOk then none else some "Preflight Checks Failed"
  match firstDangling nodes nodes with
  | some e => .error e
  | none =>
    match startNodes nodes with
    | [] => .error .noStartNode
    | s :: rest =>
      if rest = [] then
        .ok { start_node := s, start_nodes := s :: rest,
              execution_plan := executionPlan nodes, _is_initialized := true }
      else .error .multipleStartNodes

/-- Specification predicate: every edge target of the registry is either a
registered node name or the `END` sentinel. -/
def targetsResolvable {S : Type} (nodes : List (String × AloeNodeWrapper S)) :
    Bool :=
  nodes.all (fun p => p.2.edge_map.all
    (fun q => (dictGet nodes q.2.target).isSome || q.2.target == END))

/-- The node registration step of `V2AloeNodeGraph.__init_subclass__`
(`src/aloegraph/V2/graph/v2_aloe_node_graph.py`, lines 174-178) and of the
instance-level `AloeNode` decorator (lines 139-144): each wrapper is stored
into the node dictionary under its declared node name, one plain dictionary
assignment per wrapper, in declaration order.  No duplicate check exists on
the node name: assigning an existing key silently replaces its value. -/
def registerNodes {S : Type} (ws : List (AloeNodeWrapper S)) :
    List (String × AloeNodeWrapper S) :=
  ws.foldl (fun d w => dictInsert d w.node_data.name w) []

/-! ## The V1 engine (`src/aloegraph/aloe_graph.py`)

The first-generation engine carries the completion-check/retry extension and
transition-eligibility predicates.  Its state record is `AloeConfig`
(`src/aloegraph/aloe_config.py`); in the source the node and edge
dictionaries are fields of the state object, set once at registration and
never mutated during `invoke`, so the model keeps them in a separate
environment record (a state cannot contain functions over itself). -/

/-- The payload fields of `AloeConfig` (`src/aloegraph/aloe_config.py`).
`retry_message` is `Optional[str]` in the source and the engine assigns the
possibly-`None` completion-check message to it, so it is an `Option`. -/
structure V1State where
  current_node : String := ""
  desired_node : String := ""
  user_message : String := ""
  agent_message : String := ""
  error_message : String := ""
  retry_message : Option String := some ""
  DEBUG_node_visits : List String := []
deriving DecidableEq, Repr

/-- The engine-relevant fields of the `AloeEdge` record
(`src/aloegraph/model/base_model.py`): source node, allowed targets, the
branch decider, the optional completion check with its retry budget, and the
transition-eligibility predicates.  The completion check returns a success
flag, an updated state and an optional guidance message. -/
structure AloeEdgeV1 where
  source : String
  targets : List String
  branch_decider : Option (V1State → String) := none
  completion_check : Option (V1State → Bool × V1State × Option String) := none
  completion_check_retries : Option Nat := some 5
  transition_checks : List (V1State → Bool) := []

/-- Registration environment of the V1 engine: the `nodes` and `edges`
dictionaries that `AloeGraph.AloeNode` stores on the state object
(`src/aloegraph/aloe_graph.py`, lines 106-107). -/
structure V1Env where
  nodes : List (String × (V1State → V1State))
  edges : List (String × AloeEdgeV1)

/-- Runtime failures of `AloeGraph.invoke`: the post-loop recursion-limit
`RuntimeError` (line 173), the retry-exhaustion `RuntimeError` of lines
151-153 naming the node and the retry count, the invalid-transition
`ValueError` of line 168, and a `KeyError` from the node or edge dictionary
lookups (lines 126 and 131).  The V1 `invoke` has no `try` block, so every
one of these propagates to the caller. -/
inductive V1Err : Type
  | recursionLimit (limit : Nat)
  | retryExhausted (node : String) (retries : Nat)
  | invalidTransition (source target : String)
  | keyError (key : String)
deriving DecidableEq, Repr

/-- The wrapper that `AloeGraph.AloeNode` puts around every node body
(`src/aloegraph/aloe_graph.py`, lines 96-103): record the current node,
clear `desired_node` when it names this node, append to the debug visit
list, then run the body. -/
def v1NodeWrapper (source_name : String) (f : V1State → V1State) :
    V1State → V1State := fun s =>
  let s1 := { s with current_node := source_name }
  let s2 :=
    if source_name = s1.desired_node then { s1 with desired_node := "" }
    else s1
  f { s2 with DEBUG_node_visits := s2.DEBUG_node_visits ++ [source_name] }

/-- `AloeConfig.get_available_transitions`
(`src/aloegraph/aloe_config.py`): the targets of the current node whose own
edge entry exists and whose transition checks all hold; targets without an
edge entry are skipped. -/
def getAvailableTransitions (env : V1Env) (s : V1State) : List String :=
  match dictGet env.edges s.current_node with
  | none => []
  | some edge =>
    edge.targets.filter (fun t =>
      match dictGet env.edges t with
      | none => false
      | some et => et.transition_checks.all (fun c => c s))

/-- The completion-check retry loop of `AloeGraph.invoke`
(`src/aloegraph/aloe_graph.py`, lines 136-153), recursing on the number of
remaining attempts (`retries` at the first call).  Each attempt evaluates
the check on the current state; on success the retry message is cleared to
the empty string and the loop exits with the state the check returned; on
failure the message is stored as the retry hint and the node body is
re-invoked before the next attempt.  Exhausting all attempts raises
`RuntimeError` naming the node and the retry count (the `for`/`else`
clause). -/
def retryAttempts (check : V1State → Bool × V1State × Option String)
    (node_fn : V1State → V1State) (current : String) (retries : Nat) :
    Nat → V1State → Except V1Err V1State
  | 0, _ => .error (.retryExhausted current retries)
  | remaining + 1, s =>
    let r := check s
    if r.1 then .ok { r.2.1 with retry_message := some "" }
    else
      retryAttempts check node_fn current retries remaining
        (node_fn { r.2.1 with retry_message := r.2.2 })

/-- The `or 1` coercion of line 136 of `src/aloegraph/aloe_graph.py`:
`retries = edge.completion_check_retries or 1`, where both `None` and `0`
are falsy. -/
def retriesOf (e : AloeEdgeV1) : Nat :=
  match e.completion_check_retries with
  | none => 1
  | some n => if n = 0 then 1 else n

/-- The `while steps < recursion_limit` loop of `AloeGraph.invoke`
(`src/aloegraph/aloe_graph.py`, lines 115-171), recursing on the number of
iterations left; exhausting them is exactly the post-loop `raise` of line
173.  Each iteration: honour `desired_node` when it is an available
transition (lines 118-120), run the current node (lines 126-128, a
`KeyError` on an unknown node propagates), run the completion-check retry
loop when the edge declares a check (lines 130-153), ask the branch decider
for the next node (lines 155-160), return the state when it answers `END`
or there is no decider (lines 162-164), raise `ValueError` when the answer
is not among the edge targets (lines 166-168), else advance. -/
def v1InvokeLoop (env : V1Env) (recursion_limit : Nat) :
    Nat → V1State → Except V1Err V1State
  | 0, _ => .error (.recursionLimit recursion_limit)
  | remaining + 1, s =>
    let s1 :=
      if s.desired_node ≠ "" ∧ s.desired_node ∈ getAvailableTransitions env s
      then { s with current_node := s.desired_node, desired_node := "" }
      else s
    let current := s1.current_node
    match dictGet env.nodes current with
    | none => .error (.keyError current)
    | some node_fn =>
      let s2 := node_fn s1
      match dictGet env.edges current with
      | none => .error (.keyError current)
      | some edge =>
        let afterRetry : Except V1Err V1State :=
          match edge.completion_check with
          | none => .ok s2
          | some check =>
            retryAttempts check node_fn current (retriesOf edge)
              (retriesOf edge) s2
        match afterRetry with
        | .error e => .error e
        | .ok s3 =>
          match edge.branch_decider with
          | none => .ok s3
          | some decider =>
            let next_node := decider s3
            if next_node = END then .ok s3
            else if next_node ∉ edge.targets then
              .error (.invalidTransition current next_node)
            else
              v1InvokeLoop env recursion_limit remaining
                { s3 with current_node := next_node }

/-- `AloeGraph.invoke` (`src/aloegraph/aloe_graph.py`, lines 112-173): the
bounded step loop with `recursion_limit` iterations (default 10 in the
source).  No `try` block surrounds it, so every error propagates to the
caller. -/
def v1Invoke (env : V1Env) (s : V1State) (recursion_limit : Nat) :
    Except V1Err V1State :=
  v1InvokeLoop env recursion_limit recursion_limit s

/-! ## Router composition (`src/aloegraph/V2/agent/v2_router_agent.py`)

`RouterAgent` is itself a `V2AloeGraph` over `RouterAgentState`
(`src/aloegraph/V2/agent/v2_router_model.py`), which extends the base state
with the selected route `__ROUTE__` and a `parent_state` reference; the
resume marker `__RESUME__` read and written by `invoke_route` belongs to the
base `V2AloeConfig` (missing `v2_base_model.py`), matching the spec control
field `pendingResume`.  Registered routes implement the abstract `AloeRoute`
interface (`src/aloegraph/V2/graph/v2_aloe_route.py`); a route is embedded
as its compiled child graph over `VState` together with its four
route-author callbacks. -/

/-- State of the router agent: the base control and message fields plus
`__ROUTE__` and `parent_state` (`v2_router_model.py`), and the base-state
resume marker `__RESUME__` used at lines 188-196 and 207 of
`v2_router_agent.py`. -/
structure RouterAgentState where
  __EDGE__ : String := ""
  __INTERRUPT__ : String := ""
  __ROUTE__ : String := ""
  __RESUME__ : String := ""
  user_message : String := ""
  agent_message : String := ""
  error_message : String := ""
  retry_message : String := ""
  parent_state : VState := {}
deriving DecidableEq, Repr

instance : V2AloeConfigC RouterAgentState where
  getEDGE s := s.__EDGE__
  setEDGE s v := { s with __EDGE__ := v }
  getINTERRUPT s := s.__INTERRUPT__
  setINTERRUPT s v := { s with __INTERRUPT__ := v }
  setErrorMessage s v := { s with error_message := v }
  enterState s := { s with error_message := "", retry_message := "" }
  exitState s := s

/-- A registered route (`AloeRoute` in
`src/aloegraph/V2/graph/v2_aloe_route.py`): the route carries its own
compiled `V2AloeGraph` (so `route.invoke` is the V2 engine on `graph`) and
the four route-author callbacks.  `getRouteState` and `setRouteState` are
abstract in the source; they are kept as unconstrained functions here and
each theorem states its assumptions about them explicitly. -/
structure AloeRouteModel where
  RouteName : String
  graph : V2Graph VState
  describeRoute : VState → String
  isAvailable : VState → Bool
  getRouteState : VState → VState
  setRouteState : VState → VState → VState

/-- The structured routing decision `RouterAgentResponse`
(`src/aloegraph/V2/agent/v2_router_response.py`): the chosen route, whether
to route at all, and the direct reply used when not routing. -/
structure RouterAgentResponse where
  route : String := ""
  should_route : Bool := false
  agent_message : String := ""
deriving DecidableEq, Repr

/-- A router agent: its route registry (built by `addRoute`, a plain
dictionary assignment at line 229 of `v2_router_agent.py`) and the injected
response generator, modelled as a function from the prompt text to the
structured decision (the LLM call is an external collaborator). -/
structure RouterAgentModel where
  routes : List (String × AloeRouteModel)
  response_generator : String → RouterAgentResponse

/-- `RouterAgent.getAvailableRoute` (`v2_router_agent.py`, lines 231-238).
With a route name: return the route when the name is registered, `none`
otherwise - note that this branch does not consult `isAvailable`.  The
name-free variant filtering by availability is `availableRoutes` below. -/
def getAvailableRouteByName (R : RouterAgentModel) (_parent_state : VState)
    (route_name : String) : Option AloeRouteModel :=
  dictGet R.routes route_name

/-- `RouterAgent.getAvailableRoute` called without a route name
(`v2_router_agent.py`, line 238): the registered routes whose availability
predicate holds on the parent state. -/
def availableRoutes (R : RouterAgentModel) (parent_state : VState) :
    List AloeRouteModel :=
  (R.routes.map (fun p => p.2)).filter (fun r => r.isAvailable parent_state)

/-- The routing prompt built by `decide_can_route_request`
(`v2_router_agent.py`, lines 154-162): the user message followed by the
name and description of every available route. -/
def routingPrompt (R : RouterAgentModel) (s : RouterAgentState) : String :=
  "user_message: " ++ s.user_message ++ "\n\navailable routes:\n---\n" ++
    String.intercalate "\n"
      ((availableRoutes R s.parent_state).map
        (fun r => "- " ++ r.RouteName ++ ": " ++ r.describeRoute s.parent_state))

/-- The body of the entry node `decide_can_route_request`
(`v2_router_agent.py`, lines 150-182): ask the response generator for a
decision; when it asks to route and the named route is registered, record
the route and dispatch to `invoke_route`, else store the direct reply and
dispatch to `END`. -/
def decideCanRouteRequest (R : RouterAgentModel) (s : RouterAgentState) :
    RouterAgentState :=
  let response := R.response_generator (routingPrompt R s)
  if response.should_route ∧
      (getAvailableRouteByName R s.parent_state response.route).isSome then
    { s with __ROUTE__ := response.route, __EDGE__ := "invoke_route" }
  else
    { s with agent_message := response.agent_message, __EDGE__ := END }

/-- The body of the delegation node `RouterAgent.invoke_route`
(`v2_router_agent.py`, lines 184-211).  When a resume is requested and the
requested name is registered, it becomes the selected route and the marker
is cleared (lines 188-193; an unregistered name is only logged).  The route
is fetched from the registry (line 197, `KeyError` when `__ROUTE__` is not
registered), its state is projected from the parent state and given the
user message (lines 198-199), the child graph is invoked with the default
recursion limit 10 and the result is merged via `setRouteState`
(lines 201-202).  The parent agent message is taken from the merged state
(line 203).  The suspension test of line 204 reads `__INTERRUPT__` off the
value returned by `setRouteState`: when it is non-empty the route name is
remembered in `__RESUME__` and the body selects the parent edge
`invoke_route` (flagged interrupt in the decorator of line 185), else the
body selects `END`.  In the source the child state mutated in place is
visible through the route object; here the merge result alone carries what
the body observes afterwards. -/
def invokeRouteBody (R : RouterAgentModel) (s : RouterAgentState) :
    Except String RouterAgentState :=
  let s1 :=
    if s.__RESUME__ ≠ "" then
      if (getAvailableRouteByName R s.parent_state s.__RESUME__).isSome then
        { s with __ROUTE__ := s.__RESUME__, __RESUME__ := "" }
      else s
    else s
  match dictGet R.routes s1.__ROUTE__ with
  | none => .error ("KeyError: " ++ s1.__ROUTE__)
  | some route =>
    let route_state0 := route.getRouteState s1.parent_state
    let route_state1 := { route_state0 with user_message := s1.user_message }
    match invoke route.graph route_state1 10 with
    | .error _ => .error "route invoke raised"
    | .ok child_final =>
      let merged := route.setRouteState s1.parent_state child_final
      let s2 := { s1 with agent_message := merged.agent_message }
      if merged.__INTERRUPT__ ≠ "" then
        .ok { s2 with __RESUME__ := s2.__ROUTE__, __EDGE__ := "invoke_route" }
      else .ok { s2 with __EDGE__ := END }

/-- The compiled router graph (`v2_router_agent.py`, lines 150-152 and
184-186): the entry node `decide_can_route_request` with plain edges to
`invoke_route` and `END`, and the node `invoke_route` with an
interrupt-flagged self-named edge targeting `invoke_route` and a plain edge
to `END`.  Decorators apply innermost first, so each `END` edge is
registered before the `invoke_route` edge; edge names default to their
targets (`wrap_edge`, line 159 of `v2_aloe_node.py`). -/
def decideEdgeMap : List (String × AloeEdgeData) :=
  [(END, { target := END, name := END }),
   ("invoke_route", { target := "invoke_route", name := "invoke_route" })]

/-- The interrupt-flagged delegation edge declared by the decorator at line
185 of `v2_router_agent.py` (name defaulting to its target). -/
def interruptRouteEdge : AloeEdgeData :=
  { target := "invoke_route", name := "invoke_route", interrupt := true }

/-- The edge map of the `invoke_route` node (decorators at lines 185-186,
applied innermost first). -/
def invokeRouteEdgeMap : List (String × AloeEdgeData) :=
  [(END, { target := END, name := END }),
   ("invoke_route", interruptRouteEdge)]

/-- The wrapped entry node `decide_can_route_request`. -/
def decideNode (R : RouterAgentModel) : AloeNodeWrapper RouterAgentState where
  node_data := { name := "decide_can_route_request", is_entry := true }
  edge_map := decideEdgeMap
  fn := fun s => .ok (decideCanRouteRequest R s)

/-- The wrapped delegation node `invoke_route`. -/
def invokeRouteNode (R : RouterAgentModel) :
    AloeNodeWrapper RouterAgentState where
  node_data := { name := "invoke_route" }
  edge_map := invokeRouteEdgeMap
  fn := invokeRouteBody R

def routerGraph (R : RouterAgentModel) : V2Graph RouterAgentState where
  nodes :=
    [("decide_can_route_request", decideNode R),
     ("invoke_route", invokeRouteNode R)]
  start_node := "decide_can_route_request"
  _is_initialized := true

/-! ## Concrete graphs used as failing inputs and counterexamples -/

/-- A node body that stores `e` as the chosen edge. -/
def chooseEdge (e : String) : VState → Except String VState :=
  fun s => .ok { s with __EDGE__ := e }

/-- A node body that records a marker in `agent_message` and then chooses
the edge `e`. -/
def sayAndChoose (msg e : String) : VState → Except String VState :=
  fun s => .ok { s with agent_message := msg, __EDGE__ := e }

/-- One-node cycling graph: the entry node `A` always chooses its self-loop
edge `A`, so execution never reaches `END` (the step-limit failing input of
the spec). -/
def cycleGraph : V2Graph VState where
  nodes :=
    [("A", { node_data := { name := "A", is_entry := true },
             edge_map := [("A", { target := "A", name := "A" })],
             fn := chooseEdge "A" })]
  start_node := "A"
  _is_initialized := true

/-- Graph whose entry node has an edge named `E` with a different target
`B`; nodes named `E` and `B` both exist and record which one ran. -/
def edgeNameGraph : V2Graph VState where
  nodes :=
    [("A", { node_data := { name := "A", is_entry := true },
             edge_map := [("E", { target := "B", name := "E" })],
             fn := chooseEdge "E" }),
     ("B", { node_data := { name := "B" },
             edge_map := [(END, { target := END, name := END })],
             fn := sayAndChoose "ran B" END }),
     ("E", { node_data := { name := "E" },
             edge_map := [(END, { target := END, name := END })],
             fn := sayAndChoose "ran E" END })]
  start_node := "A"
  _is_initialized := true

/-- Graph whose entry node has an interrupt edge named `I` targeting `T`;
nodes named `I` and `T` both exist and record which one ran. -/
def interruptNameGraph : V2Graph VState where
  nodes :=
    [("A", { node_data := { name := "A", is_entry := true },
             edge_map := [("I", { target := "T", name := "I", interrupt := true })],
             fn := chooseEdge "I" }),
     ("T", { node_data := { name := "T" },
             edge_map := [(END, { target := END, name := END })],
             fn := sayAndChoose "ran T" END }),
     ("I", { node_data := { name := "I" },
             edge_map := [(END, { target := END, name := END })],
             fn := sayAndChoose "ran I" END })]
  start_node := "A"
  _is_initialized := true

/-- Graph whose entry node body always raises; the node has a single
outgoing edge to `B`, and `B` records that it ran. -/
def raisingBodyGraph : V2Graph VState where
  nodes :=
    [("A", { node_data := { name := "A", is_entry := true },
             edge_map := [("B", { target := "B", name := "B" })],
             fn := fun _ => .error "boom" }),
     ("B", { node_data := { name := "B" },
             edge_map := [(END, { target := END, name := END })],
             fn := sayAndChoose "ran B" END })]
  start_node := "A"
  _is_initialized := true

/-- Graph whose entry node has exactly one outgoing edge (to `B`) but whose
body stores the undefined edge name `X`; `B` records that it ran.  The
single-edge fallback of `invoke` should default to the lone edge here. -/
def singleEdgeGraph : V2Graph VState where
  nodes :=
    [("A", { node_data := { name := "A", is_entry := true },
             edge_map := [("B", { target := "B", name := "B" })],
             fn := chooseEdge "X" }),
     ("B", { node_data := { name := "B" },
             edge_map := [(END, { target := END, name := END })],
             fn := sayAndChoose "ran B" END })]
  start_node := "A"
  _is_initialized := true

/-- Graph whose entry node `A` always raises and has an edge named after
the node itself, so that the unchanged dispatch target resolves after the
exception. -/
def selfNamedRaisingGraph : V2Graph VState where
  nodes :=
    [("A", { node_data := { name := "A", is_entry := true },
             edge_map := [("A", { target := "A", name := "A" })],
             fn := fun _ => .error "boom" })]
  start_node := "A"
  _is_initialized := true

/-- A two-node child graph that suspends: its entry node `c1` chooses the
interrupt-flagged edge `pause` (targeting `c2`), so the child's `invoke`
returns with its own interrupt marker set to `pause`. -/
def childSuspendGraph : V2Graph VState where
  nodes :=
    [("c1", { node_data := { name := "c1", is_entry := true },
              edge_map :=
                [("pause", { target := "c2", name := "pause", interrupt := true })],
              fn := chooseEdge "pause" }),
     ("c2", { node_data := { name := "c2" },
              edge_map := [(END, { target := END, name := END })],
              fn := sayAndChoose "child done" END })]
  start_node := "c1"
  _is_initialized := true

/-- A route over `childSuspendGraph` whose `setRouteState` follows the
documented example implementation in `v2_aloe_route.py` (lines 108-110):
copy the child's agent message into the parent state and return the parent
state.  The returned value therefore carries the parent state's interrupt
marker, not the child's. -/
def docExampleRoute : AloeRouteModel where
  RouteName := "R"
  graph := childSuspendGraph
  describeRoute _ := "suspending child"
  isAvailable _ := true
  getRouteState _ := {}
  setRouteState p c := { p with agent_message := c.agent_message }

/-- A route over `childSuspendGraph` whose `setRouteState` returns the
child's final state itself, so the merged value preserves the child's
interrupt marker. -/
def preservingRoute : AloeRouteModel where
  RouteName := "R"
  graph := childSuspendGraph
  describeRoute _ := "suspending child"
  isAvailable _ := true
  getRouteState _ := {}
  setRouteState _ c := c

/-- A router that always decides to delegate to route `R`. -/
def routerWith (r : AloeRouteModel) : RouterAgentModel where
  routes := [("R", r)]
  response_generator _ := { route := "R", should_route := true }

/-- Concrete V1 environment: a single node `a` whose body is the identity,
with an edge whose completion check always fails with hint `"hint"` and a
retry budget of 2. -/
def v1RetryEnv : V1Env where
  nodes := [("a", fun s => s)]
  edges :=
    [("a", { source := "a", targets := [],
             completion_check := some (fun s => (false, s, some "hint")),
             completion_check_retries := some 2 })]

/-- Concrete V1 environment whose completion check succeeds at once. -/
def v1OkEnv : V1Env where
  nodes := [("a", fun s => s)]
  edges :=
    [("a", { source := "a", targets := [],
             completion_check := some (fun s => (true, s, none)),
             completion_check_retries := some 2 })]

/-! ## Helper lemmas -/

@[simp] theorem getEDGE_vstate (s : VState) : getEDGE s = s.__EDGE__ := rfl

@[simp] theorem setEDGE_vstate (s : VState) (v : String) :
    setEDGE s v = { s with __EDGE__ := v } := rfl

@[simp] theorem getINTERRUPT_vstate (s : VState) :
    getINTERRUPT s = s.__INTERRUPT__ := rfl

@[simp] theorem setINTERRUPT_vstate (s : VState) (v : String) :
    setINTERRUPT s v = { s with __INTERRUPT__ := v } := rfl

@[simp] theorem setErrorMessage_vstate (s : VState) (v : String) :
    setErrorMessage s v = { s with error_message := v } := rfl

@[simp] theorem enterState_vstate (s : VState) :
    enterState s = { s with error_message := "", retry_message := "" } := rfl

@[simp] theorem exitState_vstate (s : VState) : exitState s = s := rfl

@[simp] theorem getEDGE_router (s : RouterAgentState) :
    getEDGE s = s.__EDGE__ := rfl

@[simp] theorem setEDGE_router (s : RouterAgentState) (v : String) :
    setEDGE s v = { s with __EDGE__ := v } := rfl

@[simp] theorem getINTERRUPT_router (s : RouterAgentState) :
    getINTERRUPT s = s.__INTERRUPT__ := rfl

@[simp] theorem setINTERRUPT_router (s : RouterAgentState) (v : String) :
    setINTERRUPT s v = { s with __INTERRUPT__ := v } := rfl

@[simp] theorem setErrorMessage_router (s : RouterAgentState) (v : String) :
    setErrorMessage s v = { s with error_message := v } := rfl

@[simp] theorem enterState_router (s : RouterAgentState) :
    enterState s = { s with error_message := "", retry_message := "" } := rfl

@[simp] theorem exitState_router (s : RouterAgentState) : exitState s = s := rfl

/-- A compiled graph always makes `invoke` return normally: the only raise
outside the `try` block is the not-compiled check, and the `finally` clause
returns the state, discarding any exception raised inside the loop. -/
theorem invoke_compiled_isOk {S : Type} [V2AloeConfigC S] (g : V2Graph S)
    (s : S) (limit : Nat) (h : g._is_initialized = true) :
    ∃ sF, invoke g s limit = .ok sF := by
  unfold invoke
  simp [h]

/-- With a pending interrupt the loop condition of line 186 fails, so the
loop body never runs: the state is returned as is, and in particular no
node body executes. -/
theorem invokeLoop_halts_on_interrupt {S : Type} [V2AloeConfigC S]
    (g : V2Graph S) (fuel : Nat) (s : S) (steps limit : Nat)
    (h : getINTERRUPT s ≠ "") :
    invokeLoop g fuel s steps limit = (s, none) := by
  cases fuel with
  | zero => rfl
  | succ n => simp [invokeLoop, h]

/-- Resume semantics of `invoke` on the base state (lines 174-179): when a
compiled graph is invoked on a state with a pending interrupt, the loop is
entered on the state with `error_message` and `retry_message` cleared by
`_enter`, the dispatch target set to the interrupt marker - not to the
start node - and the marker cleared. -/
theorem invoke_resume_unfold (g : V2Graph VState) (s : VState) (limit : Nat)
    (hc : g._is_initialized = true) (hi : s.__INTERRUPT__ ≠ "") :
    invoke g s limit =
      .ok (invokeLoop g (limit + 2)
        { s with error_message := "", retry_message := "",
                 __EDGE__ := s.__INTERRUPT__, __INTERRUPT__ := "" }
        0 limit).1 := by
  simp [invoke, hc, hi]

/-! ## Claim theorems -/

/-- C1: on the one-node cycling graph with the default limit 10, the engine
does set `error_message` to the step-limit message on the 11th dispatch, but
the `RuntimeError` raised at line 216 of `v2_aloe_graph.py` is discarded by
the `return` inside the `finally` clause (lines 217-219): `invoke` returns
the state normally, so the caller observes a normal return, not the
exception promised by the claim and by the docstring of `invoke`. -/
theorem v2_invoke_step_limit_recorded_and_swallowed :
    invoke cycleGraph {} 10 =
      .ok { __EDGE__ := "A", error_message := recursionLimitMsg 10 } := by
  rfl

/-- C2 counterexample: in `edgeNameGraph` the entry node chooses its edge
named `E`, whose declared target is `B`.  The engine never rewrites the
dispatch target to the target of the resolved edge, so the next node looked
up is the node named `E` (final `agent_message` is `"ran E"`), not the
declared target `B` - refuting the claim that the next dispatch target is
the edge's target node name when the edge name differs from the target. -/
theorem v2_dispatch_uses_edge_name_counterexample :
    invoke edgeNameGraph {} 10 =
      .ok { __EDGE__ := END, agent_message := "ran E" } := by
  rfl

/-- C2 amended: in every loop iteration, when the body-chosen edge resolves
and is not flagged interrupt, the engine clears the interrupt marker and
continues with the dispatch target exactly as the body left it - the name
of the chosen edge, which the engine never replaces by the edge's declared
target node name. -/
theorem v2_nonInterrupt_edge_clears_marker_keeps_edge_name
    (g : V2Graph VState) (s s1 : VState) (nw : AloeNodeWrapper VState)
    (ed : AloeEdgeData) (steps limit : Nat)
    (hnode : dictGet g.nodes s.__EDGE__ = some nw)
    (hbody : nw.fn s = .ok s1)
    (hedge : dictGet nw.edge_map s1.__EDGE__ = some ed)
    (hint : ed.interrupt = false)
    (hsteps : steps + 1 ≤ limit) :
    invokeStep g s steps limit = .cont { s1 with __INTERRUPT__ := "" } (steps + 1) := by
  unfold invokeStep
  simp [hnode, hbody, hedge, hint, edgeDataTruthy, Nat.not_lt.mpr hsteps]

/-- Witness for the C2 amended theorem at a concrete input: the entry node
of `edgeNameGraph` chooses edge `E` and the engine continues with dispatch
target `E` (not the edge target `B`) and a cleared interrupt marker. -/
theorem v2_nonInterrupt_edge_witness :
    invokeStep edgeNameGraph { __EDGE__ := "A" } 0 10 =
      .cont { __EDGE__ := "E", __INTERRUPT__ := "" } 1 :=
  v2_nonInterrupt_edge_clears_marker_keeps_edge_name edgeNameGraph
    { __EDGE__ := "A" } { __EDGE__ := "E" } _ _ 0 10 rfl rfl rfl rfl
    (by omega)

/-- C3 counterexample: in `interruptNameGraph` the entry node chooses the
interrupt edge named `I` whose declared target is `T`.  The first `invoke`
suspends with the marker set to the edge name `I` - that part of the claim
holds - but the second `invoke` dispatches to the node named `I` (final
`agent_message` is `"ran I"`), not to the suspended edge's declared target
`T`, refuting the claim that resumption dispatches to the target. -/
theorem v2_resume_runs_edge_named_node_counterexample :
    invoke interruptNameGraph {} 10 =
      .ok { __EDGE__ := "I", __INTERRUPT__ := "I" } ∧
    (invoke interruptNameGraph {} 10).toOption.bind
        (fun s1 => (invoke interruptNameGraph s1 10).toOption) =
      some { __EDGE__ := END, agent_message := "ran I" } :=
  ⟨rfl, rfl⟩

/-- C3 amended: when the chosen edge is flagged interrupt, the engine sets
the pending-interrupt marker to the chosen edge name (first part), the loop
then returns without executing any further node body (second part), and a
subsequent `invoke` on the suspended state clears the marker and enters the
loop with the dispatch target set to the marker - the node named by the
suspended edge's name, which coincides with the declared target only when
the edge name equals the target (the default when no custom edge name is
given) - bypassing the entry node (third part). -/
theorem v2_interrupt_suspend_and_resume :
    (∀ (g : V2Graph VState) (s s1 : VState) (nw : AloeNodeWrapper VState)
       (ed : AloeEdgeData) (steps limit : Nat),
       dictGet g.nodes s.__EDGE__ = some nw → nw.fn s = .ok s1 →
       dictGet nw.edge_map s1.__EDGE__ = some ed → ed.interrupt = true →
       steps + 1 ≤ limit →
       invokeStep g s steps limit =
         .cont { s1 with __INTERRUPT__ := s1.__EDGE__ } (steps + 1)) ∧
    (∀ (g : V2Graph VState) (fuel : Nat) (s : VState) (steps limit : Nat),
       s.__INTERRUPT__ ≠ "" → invokeLoop g fuel s steps limit = (s, none)) ∧
    (∀ (g : V2Graph VState) (s : VState) (limit : Nat),
       g._is_initialized = true → s.__INTERRUPT__ ≠ "" →
       invoke g s limit = .ok (invokeLoop g (limit + 2)
         { s with error_message := "", retry_message := "",
                  __EDGE__ := s.__INTERRUPT__, __INTERRUPT__ := "" }
         0 limit).1) := by
  refine ⟨?_, ?_, ?_⟩
  · intro g s s1 nw ed steps limit hnode hbody hedge hint hsteps
    unfold invokeStep
    simp [hnode, hbody, hedge, hint, edgeDataTruthy, Nat.not_lt.mpr hsteps]
  · intro g fuel s steps limit h
    exact invokeLoop_halts_on_interrupt g fuel s steps limit h
  · intro g s limit hc hi
    exact invoke_resume_unfold g s limit hc hi

/-- Witness for the C3 amended theorem at concrete inputs from
`interruptNameGraph`: the suspension step, the halted loop and the resume
entry of `invoke`. -/
theorem v2_interrupt_suspend_and_resume_witness :
    invokeStep interruptNameGraph { __EDGE__ := "A" } 0 10 =
      .cont { __EDGE__ := "I", __INTERRUPT__ := "I" } 1 ∧
    invokeLoop interruptNameGraph 12 { __EDGE__ := "I", __INTERRUPT__ := "I" }
      1 10 = ({ __EDGE__ := "I", __INTERRUPT__ := "I" }, none) ∧
    invoke interruptNameGraph { __INTERRUPT__ := "I" } 10 =
      .ok (invokeLoop interruptNameGraph 12 { __EDGE__ := "I" } 0 10).1 :=
  ⟨v2_interrupt_suspend_and_resume.1 interruptNameGraph { __EDGE__ := "A" }
      { __EDGE__ := "I" } _ _ 0 10 rfl rfl rfl rfl (by omega),
   v2_interrupt_suspend_and_resume.2.1 interruptNameGraph 12
      { __EDGE__ := "I", __INTERRUPT__ := "I" } 1 10 (by decide),
   v2_interrupt_suspend_and_resume.2.2 interruptNameGraph
      { __INTERRUPT__ := "I" } 10 rfl (by decide)⟩

/-- C4 counterexample: in `raisingBodyGraph` the entry node body always
raises.  `invoke` returns with `error_message` still empty - the failure
and its traceback are only sent to the log notifier, never recorded into
the state's error field - and execution does not continue at the same
position either: the unchanged dispatch target `A` does not resolve in the
node's edge map, the resulting `KeyError` aborts the loop and is discarded
by the `finally` clause, so the claimed indefinite re-entry (which would
end in the step-limit message being recorded) never happens. -/
theorem v2_body_exception_error_message_counterexample :
    invoke raisingBodyGraph {} 10 = .ok { __EDGE__ := "A" } := by
  rfl

/-- C4 amended: when a node body raises, the engine only logs the failure
(the state, including `error_message` and the dispatch target, is left as
it was) and proceeds to edge resolution with the unchanged target: if that
name is absent from the node's edge map the lookup raises `KeyError` with
the state untouched (first part); if it resolves to a non-interrupt edge
the loop re-enters at the same position (second part); and in either case a
compiled graph's `invoke` returns normally, the `finally` clause discarding
any exception in flight (third part). -/
theorem v2_body_exception_logged_only :
    (∀ (g : V2Graph VState) (s : VState) (nw : AloeNodeWrapper VState)
       (msg : String) (steps limit : Nat),
       dictGet g.nodes s.__EDGE__ = some nw → nw.fn s = .error msg →
       dictGet nw.edge_map s.__EDGE__ = none →
       invokeStep g s steps limit = .raised s (.keyError s.__EDGE__)) ∧
    (∀ (g : V2Graph VState) (s : VState) (nw : AloeNodeWrapper VState)
       (msg : String) (ed : AloeEdgeData) (steps limit : Nat),
       dictGet g.nodes s.__EDGE__ = some nw → nw.fn s = .error msg →
       dictGet nw.edge_map s.__EDGE__ = some ed → ed.interrupt = false →
       steps + 1 ≤ limit →
       invokeStep g s steps limit =
         .cont { s with __INTERRUPT__ := "" } (steps + 1)) ∧
    (∀ (g : V2Graph VState) (s : VState) (limit : Nat),
       g._is_initialized = true → ∃ sF, invoke g s limit = .ok sF) := by
  refine ⟨?_, ?_, ?_⟩
  · intro g s nw msg steps limit hnode hbody hedge
    unfold invokeStep
    simp [hnode, hbody, hedge]
  · intro g s nw msg ed steps limit hnode hbody hedge hint hsteps
    unfold invokeStep
    simp [hnode, hbody, hedge, hint, edgeDataTruthy, Nat.not_lt.mpr hsteps]
  · intro g s limit h
    exact invoke_compiled_isOk g s limit h

/-- Witness for the C4 amended theorem at concrete inputs: the aborting
lookup on `raisingBodyGraph`, the same-position continuation on
`selfNamedRaisingGraph`, and the normal return of `invoke`. -/
theorem v2_body_exception_logged_only_witness :
    invokeStep raisingBodyGraph { __EDGE__ := "A" } 0 10 =
      .raised { __EDGE__ := "A" } (.keyError "A") ∧
    invokeStep selfNamedRaisingGraph { __EDGE__ := "A" } 0 10 =
      .cont { __EDGE__ := "A", __INTERRUPT__ := "" } 1 ∧
    ∃ sF, invoke raisingBodyGraph { __EDGE__ := "A" } 10 = .ok sF :=
  ⟨v2_body_exception_logged_only.1 raisingBodyGraph { __EDGE__ := "A" } _
      "boom" 0 10 rfl rfl rfl,
   v2_body_exception_logged_only.2.1 selfNamedRaisingGraph { __EDGE__ := "A" }
      _ "boom" _ 0 10 rfl rfl rfl rfl (by omega),
   v2_body_exception_logged_only.2.2 raisingBodyGraph { __EDGE__ := "A" } 10
      rfl⟩

/-- C5: the single-edge fallback of lines 200-204 of `v2_aloe_graph.py` is
never reached when the chosen edge is absent from the edge map, because the
plain dictionary access of line 199 raises `KeyError` first.  On the
failing input - entry node with exactly one outgoing edge to `B`, body
choosing the undefined name `X` - the loop aborts with the `KeyError` in
flight (second conjunct, evaluating the loop `invoke` runs) and the
`finally` clause discards it, so `invoke` returns the state unchanged
(first conjunct): the claimed fallback dispatch to `B` does not happen, and
neither does the undefined-edge `ValueError` promised by the docstring of
`invoke`. -/
theorem v2_single_edge_fallback_dead_at_failing_input :
    invoke singleEdgeGraph {} 10 = .ok { __EDGE__ := "X" } ∧
    invokeLoop singleEdgeGraph 12 { __EDGE__ := "A" } 0 10 =
      ({ __EDGE__ := "X" }, some (.keyError "X")) :=
  ⟨rfl, rfl⟩

/-- The edge scan of one node finds no dangling edge exactly when every
edge target of that node is a registered node or `END`. -/
theorem firstDanglingEdge_eq_none_iff {S : Type}
    (nodes : List (String × AloeNodeWrapper S)) (n : String) :
    ∀ l : List (String × AloeEdgeData),
      firstDanglingEdge nodes n l = none ↔
        l.all (fun q => (dictGet nodes q.2.target).isSome || q.2.target == END)
          = true := by
  intro l
  induction l with
  | nil => simp [firstDanglingEdge]
  | cons hd tl ih =>
    by_cases h : (dictGet nodes hd.2.target).isNone ∧ hd.2.target ≠ END
    · simp only [firstDanglingEdge, if_pos h, List.all_cons]
      constructor
      · intro hc
        exact absurd hc (by simp)
      · intro hc
        rcases h with ⟨h1, h2⟩
        rw [Option.isNone_iff_eq_none] at h1
        simp [h1, h2] at hc
    · simp only [firstDanglingEdge, if_neg h, List.all_cons, ih]
      rw [not_and_or] at h
      have he : ((dictGet nodes hd.2.target).isSome || hd.2.target == END)
          = true := by
        rcases h with h1 | h2
        · have h1a : dictGet nodes hd.2.target ≠ none := by
            simpa using h1
          simp [Option.isSome_iff_ne_none.mpr h1a]
        · have h2a : hd.2.target = END := by simpa using h2
          simp [h2a]
      simp [he]

/-- The node scan of `compile` finds no dangling edge exactly when every
edge of every scanned node resolves. -/
theorem firstDangling_eq_none_iff {S : Type}
    (nodes : List (String × AloeNodeWrapper S)) :
    ∀ l : List (String × AloeNodeWrapper S),
      firstDangling nodes l = none ↔
        l.all (fun p => p.2.edge_map.all
          (fun q => (dictGet nodes q.2.target).isSome || q.2.target == END))
          = true := by
  intro l
  induction l with
  | nil => simp [firstDangling]
  | cons hd tl ih =>
    rcases h : firstDanglingEdge nodes hd.1 hd.2.edge_map with _ | e
    · have := (firstDanglingEdge_eq_none_iff nodes hd.1 hd.2.edge_map).mp h
      simp [firstDangling, h, ih, this]
    · have : ¬ (hd.2.edge_map.all
          (fun q => (dictGet nodes q.2.target).isSome || q.2.target == END)
            = true) := by
        intro hc
        rw [← firstDanglingEdge_eq_none_iff nodes hd.1 hd.2.edge_map] at hc
        rw [hc] at h
        cases h
      simp [firstDangling, h, this]

/-- The dangling-edge scan of `compile` succeeds (finds nothing) exactly
when all edge targets resolve. -/
theorem firstDangling_none_iff_resolvable {S : Type}
    (nodes : List (String × AloeNodeWrapper S)) :
    firstDangling nodes nodes = none ↔ targetsResolvable nodes = true := by
  unfold targetsResolvable
  exact firstDangling_eq_none_iff nodes nodes

/-- Every error the edge scan reports is a dangling-target error. -/
theorem firstDanglingEdge_some_shape {S : Type}
    (nodes : List (String × AloeNodeWrapper S)) (n : String) :
    ∀ (l : List (String × AloeEdgeData)) (e : CompileErr),
      firstDanglingEdge nodes n l = some e →
      ∃ en t, e = .danglingTarget en n t := by
  intro l
  induction l with
  | nil => intro e he; cases he
  | cons hd tl ih =>
    intro e he
    by_cases h : (dictGet nodes hd.2.target).isNone ∧ hd.2.target ≠ END
    · simp only [firstDanglingEdge, if_pos h] at he
      exact ⟨hd.1, hd.2.target, by cases he; rfl⟩
    · simp only [firstDanglingEdge, if_neg h] at he
      exact ih e he

/-- Every error the node scan reports is a dangling-target error. -/
theorem firstDangling_some_shape {S : Type}
    (nodes : List (String × AloeNodeWrapper S)) :
    ∀ (l : List (String × AloeNodeWrapper S)) (e : CompileErr),
      firstDangling nodes l = some e →
      ∃ en n t, e = .danglingTarget en n t := by
  intro l
  induction l with
  | nil => intro e he; cases he
  | cons hd tl ih =>
    intro e he
    rcases h : firstDanglingEdge nodes hd.1 hd.2.edge_map with _ | e1
    · rw [firstDangling, h] at he
      exact ih e he
    · rw [firstDangling, h] at he
      obtain ⟨en, t, ht⟩ :=
        firstDanglingEdge_some_shape nodes hd.1 hd.2.edge_map e1 h
      refine ⟨en, hd.1, t, ?_⟩
      cases he
      exact ht

/-- `compile` succeeds exactly on registries with exactly one entry node
and fully resolvable edge targets, for either preflight outcome. -/
theorem compile_ok_iff {S : Type} (nodes : List (String × AloeNodeWrapper S))
    (pf : Bool) :
    (∃ r, compile nodes pf = .ok r) ↔
      (startNodes nodes).length = 1 ∧ targetsResolvable nodes = true := by
  unfold compile
  rcases h : firstDangling nodes nodes with _ | e
  · have hres : targetsResolvable nodes = true :=
      (firstDangling_eq_none_iff nodes nodes).mp h
    rcases hs : startNodes nodes with _ | ⟨s, rest⟩
    · simp [hs]
    · rcases rest with _ | ⟨r2, rest2⟩
      · simp [hs, hres]
      · simp [hs, hres]
  · have hres : ¬ targetsResolvable nodes = true := by
      intro hc
      rw [← firstDangling_none_iff_resolvable nodes] at hc
      rw [hc] at h
      cases h
    simp [hres]

/-- What a successful `compile` returns: the singleton entry list with the
start node drawn from it, the execution plan, and the initialized flag. -/
theorem compile_ok_dest {S : Type} (nodes : List (String × AloeNodeWrapper S))
    (pf : Bool) (r : CompileResult) (h : compile nodes pf = .ok r) :
    startNodes nodes = [r.start_node] ∧ r._is_initialized = true ∧
      r.execution_plan = executionPlan nodes ∧
      r.start_nodes = startNodes nodes := by
  unfold compile at h
  rcases hd : firstDangling nodes nodes with _ | e
  · rw [hd] at h
    rcases hs : startNodes nodes with _ | ⟨s, rest⟩
    · rw [hs] at h; cases h
    · rcases rest with _ | ⟨r2, rest2⟩
      · rw [hs] at h
        simp at h
        cases h
        simp [hs]
      · rw [hs] at h; simp at h
  · rw [hd] at h; cases h

/-- C6: `compile` succeeds exactly when the registry has exactly one entry
node and every edge target is `END` or a registered node (first part); a
successful compile returns the plan with the start node equal to the unique
registered entry node and the graph marked initialized (second part); any
unresolvable edge target makes it fail with a dangling-target error
whatever the entry configuration, since that scan runs first (third part);
any registry without exactly one entry node fails with a compile error
(fourth part).  Failure returns only the error: none of the plan fields is
produced (`execution_plan`, `start_node` and `_is_initialized` exist only
in the success result, as the `raise` in the source precedes all of the
corresponding assignments). -/
theorem v2_compile_characterization :
    ∀ (S : Type) (nodes : List (String × AloeNodeWrapper S)) (pf : Bool),
      ((∃ r, compile nodes pf = .ok r) ↔
        (startNodes nodes).length = 1 ∧ targetsResolvable nodes = true) ∧
      (∀ r, compile nodes pf = .ok r →
        startNodes nodes = [r.start_node] ∧ r._is_initialized = true ∧
          r.execution_plan = executionPlan nodes) ∧
      (targetsResolvable nodes = false →
        ∃ en n t, compile nodes pf = .error (.danglingTarget en n t)) ∧
      ((startNodes nodes).length ≠ 1 → ∃ e, compile nodes pf = .error e) := by
  intro S nodes pf
  refine ⟨compile_ok_iff nodes pf, ?_, ?_, ?_⟩
  · intro r hr
    obtain ⟨h1, h2, h3, _⟩ := compile_ok_dest nodes pf r hr
    exact ⟨h1, h2, h3⟩
  · intro hres
    rcases h : firstDangling nodes nodes with _ | e
    · rw [(firstDangling_none_iff_resolvable nodes).mp h] at hres
      cases hres
    · obtain ⟨en, n, t, ht⟩ := firstDangling_some_shape nodes nodes e h
      refine ⟨en, n, t, ?_⟩
      unfold compile
      rw [h, ht]
  · intro hlen
    rcases hc : compile nodes pf with e | r
    · exact ⟨e, rfl⟩
    · exact absurd ((compile_ok_iff nodes pf).mp ⟨r, hc⟩).1 hlen

/-- Witness for C6 at a concrete registry: the one-node cycling registry
has exactly one entry node and a resolvable self target, so `compile`
succeeds on it. -/
theorem v2_compile_characterization_witness :
    (compile cycleGraph.nodes true).toOption.isSome = true := by
  obtain ⟨r, hr⟩ :=
    ((v2_compile_characterization VState cycleGraph.nodes true).1).mpr
      ⟨by decide, by decide⟩
  rw [hr]
  rfl

/-- C9: the result of the `preflight` hook has no effect on `compile` - the
`AloeGraphCompileError("Preflight Checks Failed")` constructed at line 274
of `v2_aloe_graph.py` is never raised - so compilation with a failing
preflight is identical to compilation with a passing one (first part), and
on a structurally valid registry it still succeeds with the graph marked
initialized and the plan returned (second part). -/
theorem v2_compile_ignores_preflight :
    ∀ (S : Type) (nodes : List (String × AloeNodeWrapper S)),
      compile nodes false = compile nodes true ∧
      ((startNodes nodes).length = 1 → targetsResolvable nodes = true →
        ∃ r, compile nodes false = .ok r ∧ r._is_initialized = true ∧
          r.execution_plan = executionPlan nodes) := by
  intro S nodes
  constructor
  · rfl
  · intro h1 h2
    obtain ⟨r, hr⟩ := (compile_ok_iff nodes false).mpr ⟨h1, h2⟩
    obtain ⟨_, hi, hp, _⟩ := compile_ok_dest nodes false r hr
    exact ⟨r, hr, hi, hp⟩

/-- Witness for C9 at a concrete registry: on the one-node cycling registry
a failing preflight changes nothing and compilation succeeds. -/
theorem v2_compile_ignores_preflight_witness :
    compile cycleGraph.nodes false = compile cycleGraph.nodes true ∧
      (compile cycleGraph.nodes false).toOption.isSome = true := by
  refine ⟨(v2_compile_ignores_preflight VState cycleGraph.nodes).1, ?_⟩
  obtain ⟨r, hr, _⟩ :=
    (v2_compile_ignores_preflight VState cycleGraph.nodes).2
      (by decide) (by decide)
  rw [hr]
  rfl

/-- A key is absent from the dictionary exactly when no pair carries it. -/
theorem dictGet_eq_none_iff {α : Type} (d : List (String × α)) (k : String) :
    dictGet d k = none ↔ ∀ p ∈ d, p.1 ≠ k := by
  induction d with
  | nil => simp [dictGet]
  | cons hd tl ih =>
    by_cases h : hd.1 = k
    · simp [dictGet, h]
    · simp [dictGet, h, ih]

/-- The replacement map rewritten on a matching pair. -/
theorem replacePair_pos {α : Type} (k : String) (v : α) (p : String × α)
    (h : p.1 = k) : replacePair k v p = (k, v) := by
  rw [replacePair, if_pos h]

/-- The replacement map rewritten on a non-matching pair. -/
theorem replacePair_neg {α : Type} (k : String) (v : α) (p : String × α)
    (h : ¬ p.1 = k) : replacePair k v p = p := by
  rw [replacePair, if_neg h]

/-- Looking up `k` after replacing every `k`-keyed pair by `(k, v)` yields
`v` exactly when `k` was present. -/
theorem dictGet_map_replace {α : Type} (d : List (String × α)) (k : String)
    (v : α) :
    dictGet (d.map (replacePair k v)) k = (dictGet d k).map (fun _ => v) := by
  induction d with
  | nil => simp [dictGet]
  | cons hd tl ih =>
    by_cases h : hd.1 = k
    · rw [List.map_cons, replacePair_pos k v hd h]
      simp [dictGet, h]
    · rw [List.map_cons, replacePair_neg k v hd h]
      simp [dictGet, h, ih]

/-- Appending entries after a dictionary that lacks the key defers the
lookup to the appended part. -/
theorem dictGet_append_of_none {α : Type} (d l : List (String × α))
    (k : String) (h : dictGet d k = none) :
    dictGet (d ++ l) k = dictGet l k := by
  induction d with
  | nil => simp
  | cons hd tl ih =>
    by_cases hk : hd.1 = k
    · rw [dictGet, if_pos hk] at h
      cases h
    · rw [dictGet, if_neg hk] at h
      rw [List.cons_append, dictGet, if_neg hk]
      exact ih h

/-- Replacing the `k`-keyed pairs leaves a dictionary without the key
unchanged. -/
theorem map_replace_of_none {α : Type} (d : List (String × α)) (k : String)
    (v : α) (h : dictGet d k = none) :
    d.map (replacePair k v) = d := by
  induction d with
  | nil => rfl
  | cons hd tl ih =>
    by_cases hk : hd.1 = k
    · rw [dictGet, if_pos hk] at h
      cases h
    · rw [dictGet, if_neg hk] at h
      rw [List.map_cons, replacePair_neg k v hd hk, ih h]

/-- When the key is present, the assignment replaces in place. -/
theorem dictInsert_present {α : Type} (d : List (String × α)) (k : String)
    (v : α) (h : (dictGet d k).isSome = true) :
    dictInsert d k v = d.map (replacePair k v) := by
  rw [dictInsert, if_pos h]

/-- When the key is absent, the assignment appends the new pair. -/
theorem dictInsert_absent {α : Type} (d : List (String × α)) (k : String)
    (v : α) (h : dictGet d k = none) :
    dictInsert d k v = d ++ [(k, v)] := by
  rw [dictInsert, if_neg]
  rw [h]
  simp

/-- An absent or present key stays decidable: a lookup is either `none` or
`isSome`. -/
theorem dictGet_none_of_not_isSome {α : Type} (d : List (String × α))
    (k : String) (h : ¬ (dictGet d k).isSome = true) : dictGet d k = none := by
  rcases hx : dictGet d k with _ | x
  · rfl
  · rw [hx] at h
    simp at h

/-- Replacing `k`-keyed pairs does not change the key list. -/
theorem map_replace_keys {α : Type} (d : List (String × α)) (k : String)
    (v : α) :
    (d.map (replacePair k v)).map Prod.fst = d.map Prod.fst := by
  rw [List.map_map]
  congr 1
  funext p
  by_cases hp : p.1 = k
  · rw [Function.comp_apply, replacePair_pos k v p hp]
    exact hp.symm
  · rw [Function.comp_apply, replacePair_neg k v p hp]

/-- C10: node registration is a plain dictionary assignment keyed by the
node name, so a second registration under the same name is indistinguishable
from never having performed the first (first part, an unconditional equation
on the assignment modelling lines 174-178 of `v2_aloe_node_graph.py`); the
lookup after the assignment returns the later wrapper (second part); the
key set stays duplicate-free, so a registry holds at most one node
definition per name (third part); and registering two wrappers sharing a
node name yields exactly the registry of the later one, with no error value
anywhere - registration and `compile` operate on the collapsed dictionary
and cannot detect the duplicate (fourth part). -/
theorem v2_duplicate_node_registration_silent_replace :
    (∀ (α : Type) (d : List (String × α)) (k : String) (w1 w2 : α),
       dictInsert (dictInsert d k w1) k w2 = dictInsert d k w2) ∧
    (∀ (α : Type) (d : List (String × α)) (k : String) (w : α),
       dictGet (dictInsert d k w) k = some w) ∧
    (∀ (α : Type) (d : List (String × α)) (k : String) (v : α),
       (d.map Prod.fst).Nodup → ((dictInsert d k v).map Prod.fst).Nodup) ∧
    (∀ (w1 w2 : AloeNodeWrapper VState),
       w1.node_data.name = w2.node_data.name →
       registerNodes [w1, w2] = registerNodes [w2]) := by
  refine ⟨?_, ?_, ?_, ?_⟩
  · intro α d k w1 w2
    by_cases hs : (dictGet d k).isSome = true
    · have h2 : (dictGet (d.map (replacePair k w1)) k).isSome = true := by
        rw [dictGet_map_replace]
        rcases hx : dictGet d k with _ | x
        · rw [hx] at hs
          simp at hs
        · rfl
      rw [dictInsert_present d k w1 hs, dictInsert_present _ k w2 h2,
        dictInsert_present d k w2 hs, List.map_map]
      congr 1
      funext p
      by_cases hp : p.1 = k
      · rw [Function.comp_apply, replacePair_pos k w1 p hp,
          replacePair_pos k w2 p hp, replacePair_pos k w2 (k, w1) rfl]
      · rw [Function.comp_apply, replacePair_neg k w1 p hp,
          replacePair_neg k w2 p hp]
    · have hn := dictGet_none_of_not_isSome d k hs
      have h2 : (dictGet (d ++ [(k, w1)]) k).isSome = true := by
        rw [dictGet_append_of_none d _ k hn, dictGet, if_pos rfl]
        rfl
      rw [dictInsert_absent d k w1 hn, dictInsert_present _ k w2 h2,
        dictInsert_absent d k w2 hn, List.map_append,
        map_replace_of_none d k w2 hn]
      simp [replacePair_pos k w2 (k, w1) rfl]
  · intro α d k w
    by_cases hs : (dictGet d k).isSome = true
    · rw [dictInsert_present d k w hs, dictGet_map_replace]
      rcases hx : dictGet d k with _ | x
      · rw [hx] at hs
        simp at hs
      · rfl
    · have hn := dictGet_none_of_not_isSome d k hs
      rw [dictInsert_absent d k w hn, dictGet_append_of_none d _ k hn,
        dictGet, if_pos rfl]
  · intro α d k v hd
    by_cases hs : (dictGet d k).isSome = true
    · rw [dictInsert_present d k v hs, map_replace_keys]
      exact hd
    · have hn := dictGet_none_of_not_isSome d k hs
      rw [dictInsert_absent d k v hn, List.map_append]
      refine List.Nodup.append hd (by simp) ?_
      intro a ha hb
      simp only [List.map_cons, List.map_nil, List.mem_singleton] at hb
      subst hb
      obtain ⟨p, hp, hpa⟩ := List.mem_map.mp ha
      exact (dictGet_eq_none_iff d a).mp hn p hp hpa
  · intro w1 w2 h
    simp [registerNodes, dictInsert, dictGet, replacePair, h]

/-- Witness for C10 at concrete inputs: two wrappers sharing the node name
`A`; the second registration wins silently. -/
theorem v2_duplicate_node_registration_witness :
    registerNodes
        [{ node_data := { name := "A", is_entry := true }, edge_map := [],
           fn := chooseEdge "x" },
         { node_data := { name := "A" }, edge_map := [],
           fn := chooseEdge "y" }] =
      registerNodes
        [{ node_data := { name := "A" }, edge_map := [],
           fn := chooseEdge "y" }] ∧
    ((dictInsert ([] : List (String × Nat)) "A" 1).map Prod.fst).Nodup :=
  ⟨v2_duplicate_node_registration_silent_replace.2.2.2 _ _ rfl,
   v2_duplicate_node_registration_silent_replace.2.2.1 Nat [] "A" 1
     (by simp)⟩

/-- With a completion check that never succeeds, every attempt budget is
exhausted and the retry loop reports the node and the configured retry
count. -/
theorem retryAttempts_allfail (check : V1State → Bool × V1State × Option String)
    (f : V1State → V1State) (c : String) (r : Nat)
    (hfail : ∀ t, (check t).1 = false) :
    ∀ (k : Nat) (s : V1State),
      retryAttempts check f c r k s = .error (.retryExhausted c r) := by
  intro k
  induction k with
  | zero => intro s; rfl
  | succ m ih =>
    intro s
    unfold retryAttempts
    rw [if_neg (by simp [hfail s])]
    exact ih _

/-- C7: the completion-check retry machinery of `AloeGraph.invoke`.  Each
failed check stores its hint into the retry-hint field and re-invokes the
same node body before the next attempt re-evaluates the check (first part);
a successful check clears the retry hint and ends the loop (second part);
and when the current node's edge declares a check that fails on every state
with a positive retry budget `n`, `invoke` raises a retry-exhausted error
naming the node and the attempt count `n` - the V1 engine has no handler,
so this propagates to the caller (third part). -/
theorem v1_completion_check_retry :
    (∀ (check : V1State → Bool × V1State × Option String)
       (f : V1State → V1State) (c : String) (r k : Nat) (s : V1State),
       (check s).1 = false →
       retryAttempts check f c r (k + 1) s =
         retryAttempts check f c r k
           (f { (check s).2.1 with retry_message := (check s).2.2 })) ∧
    (∀ (check : V1State → Bool × V1State × Option String)
       (f : V1State → V1State) (c : String) (r k : Nat) (s : V1State),
       (check s).1 = true →
       retryAttempts check f c r (k + 1) s =
         .ok { (check s).2.1 with retry_message := some "" }) ∧
    (∀ (env : V1Env) (s : V1State) (limit : Nat)
       (node_fn : V1State → V1State) (edge : AloeEdgeV1)
       (check : V1State → Bool × V1State × Option String) (n : Nat),
       s.desired_node = "" →
       dictGet env.nodes s.current_node = some node_fn →
       dictGet env.edges s.current_node = some edge →
       edge.completion_check = some check →
       edge.completion_check_retries = some n → 0 < n →
       (∀ t, (check t).1 = false) →
       0 < limit →
       v1Invoke env s limit = .error (.retryExhausted s.current_node n)) := by
  refine ⟨?_, ?_, ?_⟩
  · intro check f c r k s h
    conv_lhs => unfold retryAttempts
    rw [if_neg (by simp [h])]
  · intro check f c r k s h
    unfold retryAttempts
    rw [if_pos (by simp [h])]
  · intro env s limit node_fn edge check n hdes hnode hedge hcheck hret hn
      hfail hlim
    rcases limit with _ | k
    · exact absurd hlim (by omega)
    · have hcond : ¬ (s.desired_node ≠ "" ∧
          s.desired_node ∈ getAvailableTransitions env s) := by
        simp [hdes]
      have hr : retriesOf edge = n := by
        rw [retriesOf, hret]
        simp [Nat.pos_iff_ne_zero.mp hn]
      unfold v1Invoke v1InvokeLoop
      rw [if_neg hcond]
      simp only [hnode, hedge, hcheck, hr,
        retryAttempts_allfail check node_fn s.current_node n hfail]

/-- Witness for C7 at concrete inputs: on `v1RetryEnv` (an always-failing
check with budget 2) `invoke` raises the retry-exhausted error naming the
node `a` and count 2, and an immediately succeeding check clears the retry
hint. -/
theorem v1_completion_check_retry_witness :
    v1Invoke v1RetryEnv { current_node := "a" } 10 =
      .error (.retryExhausted "a" 2) ∧
    retryAttempts (fun s => (true, s, none)) (fun s => s) "a" 2 2
        { current_node := "a" } =
      .ok { current_node := "a", retry_message := some "" } :=
  ⟨v1_completion_check_retry.2.2 v1RetryEnv { current_node := "a" } 10 _ _ _ 2
      rfl rfl rfl rfl rfl (by omega) (fun t => rfl) (by omega),
   v1_completion_check_retry.2.1 (fun s => (true, s, none)) (fun s => s) "a"
      2 1 { current_node := "a" } rfl⟩

/-- C8 counterexample: the child graph suspends (its invoke returns with
its own interrupt marker set to `pause`, first conjunct), yet the parent
router built over `docExampleRoute` - whose `setRouteState` is exactly the
documented example implementation of `v2_aloe_route.py`, returning the
parent state with only the agent message copied - runs to `END` without
suspending and with empty pending-interrupt and pending-resume markers
(second conjunct): line 204 of `v2_router_agent.py` tests `__INTERRUPT__`
on the value returned by `setRouteState`, not on the child's final state,
so the claimed propagation fails for this route. -/
theorem router_child_suspension_not_propagated_counterexample :
    (invoke childSuspendGraph {} 10).toOption.map
        (fun s => s.__INTERRUPT__) = some "pause" ∧
    invoke (routerGraph (routerWith docExampleRoute)) {} 10 =
      .ok { __EDGE__ := END, __ROUTE__ := "R" } :=
  ⟨rfl, rfl⟩

/-- C8 amended: delegation suspension propagates exactly when the value
returned by the route's `setRouteState` carries the child's interrupt
marker.  Under that proviso: a suspended child makes `invoke_route` set the
parent's pending-resume to the route name and select the parent delegation
edge `invoke_route` (first part); that edge is interrupt-flagged, so the
engine suspends the parent with pending-interrupt equal to the delegation
edge name (second part); when the parent is later re-invoked with the
recorded resume request, `invoke_route` re-selects the same route and
clears the request (third part); and a child state carrying its own
interrupt marker re-enters the child loop at the marker, not at the child's
entry node (fourth part).  When the merged state carries no marker, the
child's results are merged and the parent proceeds to `END` without
suspending (fifth part). -/
theorem router_suspension_propagation_when_merge_preserves_marker :
    (∀ (R : RouterAgentModel) (route : AloeRouteModel) (ρ : String)
       (ps : RouterAgentState) (cf : VState),
       dictGet R.routes ρ = some route →
       ps.__RESUME__ = "" → ps.__ROUTE__ = ρ →
       invoke route.graph
         { route.getRouteState ps.parent_state with
             user_message := ps.user_message } 10 = .ok cf →
       (route.setRouteState ps.parent_state cf).__INTERRUPT__ =
         cf.__INTERRUPT__ →
       cf.__INTERRUPT__ ≠ "" →
       invokeRouteBody R ps = .ok
         { ps with
             agent_message :=
               (route.setRouteState ps.parent_state cf).agent_message,
             __RESUME__ := ρ, __EDGE__ := "invoke_route" }) ∧
    (∀ (R : RouterAgentModel) (q q1 : RouterAgentState) (steps limit : Nat),
       q.__EDGE__ = "invoke_route" →
       invokeRouteBody R q = .ok q1 → q1.__EDGE__ = "invoke_route" →
       steps + 1 ≤ limit →
       invokeStep (routerGraph R) q steps limit =
         .cont { q1 with __INTERRUPT__ := "invoke_route" } (steps + 1)) ∧
    (∀ (R : RouterAgentModel) (route : AloeRouteModel) (ρ : String)
       (q : RouterAgentState),
       dictGet R.routes ρ = some route → q.__RESUME__ = ρ → ρ ≠ "" →
       invokeRouteBody R q =
         invokeRouteBody R { q with __ROUTE__ := ρ, __RESUME__ := "" }) ∧
    (∀ (g : V2Graph VState) (cs : VState) (limit : Nat),
       g._is_initialized = true → cs.__INTERRUPT__ ≠ "" →
       invoke g cs limit = .ok (invokeLoop g (limit + 2)
         { cs with error_message := "", retry_message := "",
                   __EDGE__ := cs.__INTERRUPT__, __INTERRUPT__ := "" }
         0 limit).1) ∧
    (∀ (R : RouterAgentModel) (route : AloeRouteModel) (ρ : String)
       (ps : RouterAgentState) (cf : VState),
       dictGet R.routes ρ = some route →
       ps.__RESUME__ = "" → ps.__ROUTE__ = ρ →
       invoke route.graph
         { route.getRouteState ps.parent_state with
             user_message := ps.user_message } 10 = .ok cf →
       (route.setRouteState ps.parent_state cf).__INTERRUPT__ = "" →
       invokeRouteBody R ps = .ok
         { ps with
             agent_message :=
               (route.setRouteState ps.parent_state cf).agent_message,
             __EDGE__ := END }) := by
  refine ⟨?_, ?_, ?_, ?_, ?_⟩
  · intro R route ρ ps cf hroute hres hrho hchild hpres hcf
    unfold invokeRouteBody
    rw [if_neg (by simp [hres])]
    simp only [hrho, hroute, hchild]
    rw [if_pos (by rw [hpres]; exact hcf)]
  · intro R q q1 steps limit hq hbody hq1 hsteps
    unfold invokeStep
    simp only [getEDGE_router, hq]
    have hnode : dictGet (routerGraph R).nodes "invoke_route" =
        some (invokeRouteNode R) := rfl
    have hedge : dictGet (invokeRouteNode R).edge_map "invoke_route" =
        some interruptRouteEdge := rfl
    have hfn : (invokeRouteNode R).fn = invokeRouteBody R := rfl
    rw [hnode]
    simp only [hfn, hbody, getEDGE_router, hq1, hedge, edgeDataTruthy,
      setINTERRUPT_router, interruptRouteEdge]
    simp [Nat.not_lt.mpr hsteps]
  · intro R route ρ q hroute hq hrho
    unfold invokeRouteBody
    rw [if_pos (by rw [hq]; exact hrho)]
    rw [if_pos (by simp [getAvailableRouteByName, hq, hroute])]
    rw [hq]
    rw [if_neg (by simp)]
  · intro g cs limit hc hi
    exact invoke_resume_unfold g cs limit hc hi
  · intro R route ρ ps cf hroute hres hrho hchild hpres
    unfold invokeRouteBody
    rw [if_neg (by simp [hres])]
    simp only [hrho, hroute, hchild]
    rw [if_neg (by simp [hpres])]

/-- Witness for the C8 amended theorem at concrete inputs built from
`preservingRoute` (whose `setRouteState` returns the child state, so the
merge preserves the marker), plus the no-marker case on `docExampleRoute`. -/
theorem router_suspension_propagation_witness :
    invokeRouteBody (routerWith preservingRoute) { __ROUTE__ := "R" } =
      .ok { __EDGE__ := "invoke_route", __ROUTE__ := "R", __RESUME__ := "R" } ∧
    invokeStep (routerWith preservingRoute |> routerGraph)
        { __EDGE__ := "invoke_route", __ROUTE__ := "R" } 0 10 =
      .cont { __EDGE__ := "invoke_route", __INTERRUPT__ := "invoke_route",
              __ROUTE__ := "R", __RESUME__ := "R" } 1 ∧
    invokeRouteBody (routerWith preservingRoute) { __RESUME__ := "R" } =
      invokeRouteBody (routerWith preservingRoute) { __ROUTE__ := "R" } ∧
    invoke childSuspendGraph { __EDGE__ := "pause", __INTERRUPT__ := "pause" }
        10 =
      .ok (invokeLoop childSuspendGraph 12 { __EDGE__ := "pause" } 0 10).1 ∧
    invokeRouteBody (routerWith docExampleRoute) { __ROUTE__ := "R" } =
      .ok { __EDGE__ := END, __ROUTE__ := "R" } :=
  ⟨router_suspension_propagation_when_merge_preserves_marker.1
      (routerWith preservingRoute) preservingRoute "R" { __ROUTE__ := "R" }
      { __EDGE__ := "pause", __INTERRUPT__ := "pause" } rfl rfl rfl rfl rfl
      (by decide),
   router_suspension_propagation_when_merge_preserves_marker.2.1
      (routerWith preservingRoute)
      { __EDGE__ := "invoke_route", __ROUTE__ := "R" }
      { __EDGE__ := "invoke_route", __ROUTE__ := "R", __RESUME__ := "R" }
      0 10 rfl rfl rfl (by omega),
   router_suspension_propagation_when_merge_preserves_marker.2.2.1
      (routerWith preservingRoute) preservingRoute "R" { __RESUME__ := "R" }
      rfl rfl (by decide),
   router_suspension_propagation_when_merge_preserves_marker.2.2.2.1
      childSuspendGraph { __EDGE__ := "pause", __INTERRUPT__ := "pause" } 10
      rfl (by decide),
   router_suspension_propagation_when_merge_preserves_marker.2.2.2.2
      (routerWith docExampleRoute) docExampleRoute "R" { __ROUTE__ := "R" }
      { __EDGE__ := "pause", __INTERRUPT__ := "pause" } rfl rfl rfl rfl rfl⟩

end AloeGraph

